import Mathlib

/-!
Verification of the penquest-pkgs session layer against its specification.

The Python sources are shallowly embedded: the session state machine of
penquest_pkgs/game/Game.py (class Game with inner classes Input and Output)
becomes a set of pure functions over an explicit GameClient state, message
handlers return Except values (a raised RuntimeError becomes an error result),
asyncio suspension on a wrong storage phase becomes the distinguished
StepResult.blocked outcome, the dispatched events and the outbound commands of
one handler invocation are returned as explicit lists in dispatch order, and
the asyncio.Queue interaction buffer becomes a FIFO list.

Python dict values (lobby slot maps, role maps, the playable-result reply) are
embedded as association lists with the helpers alistGet / alistSet / alistDel,
which follow dict semantics: lookup by key, update in place on overwrite,
deletion of a missing key is an error (KeyError).
-/

namespace PenQuest

/-- GameStoragePhase from penquest_pkgs/constants/GameStoragePhase.py. -/
inductive GameStoragePhase where
  | Start
  | Lobby
  | Running
  | Ended
deriving DecidableEq, Repr

/-- ExternalGamePhase from penquest_pkgs/model/game_phase.py with its exact
numeric values 0, 1, 3, 4, 5 (there is no member with value 2). -/
inductive ExternalGamePhase where
  | Starting
  | InitDraw
  | Attacker
  | Defender
  | Ended
deriving DecidableEq, Repr

/-- InternalGamePhase from penquest_pkgs/model/game_phase.py. -/
inductive InternalGamePhase where
  | Idle
  | Shopping
  | Playing
deriving DecidableEq, Repr

/-- GameInteractionType from penquest_pkgs/constants/GameInteractions.py. -/
inductive GameInteractionType where
  | CREATE_OR_JOIN_LOBBY
  | CHANGE_LOBBY_PROPERTIES
  | PLAYER_READY
  | SHOPPING_PHASE
  | PLAY_CARD
  | CHOOSE_ACTION
  | END
deriving DecidableEq, Repr

/-- GameEndedState from penquest_pkgs/constants/GameEndedState.py. -/
inductive GameEndedState where
  | WON
  | LOST
  | DRAW
  | SURRENDERED
deriving DecidableEq, Repr

/-- Change events dispatched by the state machine
(penquest_pkgs/constants/Events.py), restricted to the ones the embedded
handlers dispatch. -/
inductive DispEvent where
  | lobby_changed
  | game_storage_phase_changed
  | scenario_changed
  | game_phase_changed
  | players_changed
  | board_changed
  | hand_changed
  | equipment_changed
  | player_role_changed
  | shop_changed
  | selection_offer_changed
  | game_started
  | game_ended
deriving DecidableEq, Repr

/-- Association-list embedding of a Python dict lookup (dict.get / in). -/
def alistGet {κ α : Type} [DecidableEq κ] : List (κ × α) → κ → Option α
  | [], _ => none
  | (k, v) :: rest, key => if k = key then some v else alistGet rest key

/-- Association-list embedding of a Python dict assignment d[k] = v:
overwrites in place when the key exists, appends otherwise. -/
def alistSet {κ α : Type} [DecidableEq κ] : List (κ × α) → κ → α → List (κ × α)
  | [], key, val => [(key, val)]
  | (k, v) :: rest, key, val =>
      if k = key then (key, val) :: rest else (k, v) :: alistSet rest key val

/-- Association-list embedding of a Python dict deletion del d[k]:
none models the KeyError raised on a missing key. -/
def alistDel {κ α : Type} [DecidableEq κ] : List (κ × α) → κ → Option (List (κ × α))
  | [], _ => none
  | (k, v) :: rest, key =>
      if k = key then some rest
      else (alistDel rest key).map (fun m => (k, v) :: m)

/-- ScenarioTeaser from penquest_pkgs/model/scenario_teaser.py, restricted to
the fields the session state machine inspects. -/
structure ScenarioTeaser where
  id : String
  name : String
deriving DecidableEq, Repr

/-- Player from penquest_pkgs/model/player.py, restricted to the fields the
embedded handlers inspect. -/
structure Player where
  id : Int
  connection_id : String
  name : String
deriving DecidableEq, Repr

/-- GameOptions from penquest_pkgs/model/game_options.py, restricted to the
only option the embedded handlers inspect. Over the wire the option arrives as
a plain int (message_models.GameOptions declares it Required(int)), and the
field-copying mapper map_message2model keeps that int, so the handlers compare
it with 0 as an integer. -/
structure GameOptions where
  equipment_shop_mode : Int
deriving DecidableEq, Repr

/-- Lobby from penquest_pkgs/model/lobby.py, restricted to the fields the
embedded handlers inspect. The slot map (keys are 1-based slot numbers) is an
association list with dict semantics. -/
structure Lobby where
  code : String
  game_options : GameOptions
  players : List (Int × Player)
  scenario : Option ScenarioTeaser
deriving DecidableEq, Repr

/-- Action from penquest_pkgs/model/action.py, restricted to the fields the
embedded handlers inspect. Action equality in Python compares only ids. -/
structure Action where
  id : Int
  name : String
  card_type : String
  target_type : Option String
  requires_attack_mask : Option Bool
deriving DecidableEq, Repr

/-- Equipment from penquest_pkgs/model/equipment.py, restricted to the fields
the embedded handlers inspect. -/
structure Equipment where
  id : Int
  name : String
  type : String
deriving DecidableEq, Repr

/-- Asset from penquest_pkgs/model/asset.py, restricted to the fields the
embedded handlers inspect. Asset.__eq__ in the source compares only the id
field; wherever the handlers test membership or equality of assets the
embedding therefore compares ids. -/
structure Asset where
  id : Int
  name : String
deriving DecidableEq, Repr

/-- Actor from penquest_pkgs/model/actor.py, restricted to the fields the
embedded handlers inspect. The nullable list fields are embedded as plain
lists (the handlers iterate them). -/
structure Actor where
  id : String
  type : String
  connection_id : String
  visible_assets : List Asset
  assets : List Asset
  actions : List Action
  equipment : List Equipment
deriving DecidableEq, Repr

/-- GameState from penquest_pkgs/model/game_state.py (the immutable snapshot
dataclass), restricted to the fields the embedded handlers inspect. -/
structure GameState where
  name : String
  scenario : Option ScenarioTeaser
  from_lobby : Option Lobby
  game_options : GameOptions
  actor_connection_id : Option String
  players : List Player
  turn : Int
  external_phase : ExternalGamePhase
  internal_phase : InternalGamePhase
  end_state : Option GameEndedState
  roles : List (String × Actor)
  shop : List Equipment
  hand : List Action
  equipment : List Equipment
  assets_on_board : List Asset
  selection_choices : List Action
  selection_amount : Int
deriving DecidableEq, Repr

/-- The mutable session attributes of class Game in
penquest_pkgs/game/Game.py. The asyncio.Queue interaction buffer is a FIFO
list (put_nowait appends at the end). -/
structure GameClient where
  phase : GameStoragePhase
  lobby : Option Lobby
  actor_connection_id : Option String
  game_state : Option GameState
  offer_received : Bool
  interaction_buffer : List GameInteractionType
deriving DecidableEq, Repr

/-- A GameState with the dataclass default values of game_state.py (empty
lists, turn 1, Starting/Idle phases) and neutral lobby data; used as the base
snapshot of concrete test states. -/
def baseGS : GameState where
  name := "g"
  scenario := none
  from_lobby := none
  game_options := { equipment_shop_mode := 0 }
  actor_connection_id := none
  players := []
  turn := 1
  external_phase := .Starting
  internal_phase := .Idle
  end_state := none
  roles := []
  shop := []
  hand := []
  equipment := []
  assets_on_board := []
  selection_choices := []
  selection_amount := 0

/-- Game.Input._reveal_asset restricted to a present snapshot: adds the asset
to the board unless an asset with the same id is already there (Python list
membership via Asset.__eq__, which compares ids). -/
def _reveal_asset (gs : GameState) (asset : Asset) : GameState :=
  if gs.assets_on_board.any (fun a => a.id == asset.id) then gs
  else { gs with assets_on_board := gs.assets_on_board ++ [asset] }

/-- Error text of the not-found branch of Game.Input._hide_asset. -/
def hideNotFoundMsg : String := "Found no asset with the given id"

/-- Error text of the duplicate-id branch of Game.Input._hide_asset. -/
def hideDuplicateMsg : String := "Found more than one asset with the given id"

/-- Game.Input._hide_asset restricted to a present snapshot: collects the
board indices whose asset has the given id, errors when there are none or
more than one, and pops the single index otherwise. -/
def _hide_asset (gs : GameState) (asset_id : Int) : Except String GameState :=
  let list_index :=
    ((gs.assets_on_board.enum.filter (fun p => p.2.id == asset_id)).map Prod.fst)
  match list_index with
  | [] => .error hideNotFoundMsg
  | [i] => .ok { gs with assets_on_board := gs.assets_on_board.eraseIdx i }
  | _ :: _ :: _ => .error hideDuplicateMsg

/-- Positions at which the predicate holds, counting from the given offset;
recursion-friendly description of the index list _hide_asset builds. -/
def matchIndices (p : Asset → Bool) : List Asset → Nat → List Nat
  | [], _ => []
  | a :: t, n =>
      if p a then n :: matchIndices p t (n + 1) else matchIndices p t (n + 1)

theorem enumFrom_filter_map_eq_matchIndices (p : Asset → Bool) :
    ∀ (l : List Asset) (n : Nat),
      ((l.enumFrom n).filter (fun q => p q.2)).map Prod.fst = matchIndices p l n := by
  intro l
  induction l with
  | nil => intro n; rfl
  | cons a t ih =>
      intro n
      by_cases h : p a
      · simp [List.enumFrom, List.filter, matchIndices, h, ih]
      · simp [List.enumFrom, List.filter, matchIndices, h, ih]

theorem matchIndices_length (p : Asset → Bool) :
    ∀ (l : List Asset) (n : Nat), (matchIndices p l n).length = l.countP p := by
  intro l
  induction l with
  | nil => intro n; rfl
  | cons a t ih =>
      intro n
      by_cases h : p a
      · simp [matchIndices, h, List.countP_cons, ih]
      · simp [matchIndices, h, List.countP_cons, ih]

theorem matchIndices_singleton (p : Asset → Bool) :
    ∀ (l : List Asset) (n x : Nat), matchIndices p l n = [x] →
      ∃ j, x = n + j ∧ l.eraseIdx j = l.filter (fun a => !(p a)) := by
  intro l
  induction l with
  | nil => intro n x h; simp [matchIndices] at h
  | cons a t ih =>
      intro n x h
      by_cases hp : p a
      · simp only [matchIndices, hp, if_pos] at h
        obtain ⟨hx, htail⟩ := List.cons_eq_cons.mp h
        have hcount : t.countP p = 0 := by
          have := matchIndices_length p t (n + 1)
          rw [htail] at this
          simpa using this.symm
        refine ⟨0, by omega, ?_⟩
        have hall : ∀ b ∈ t, (fun a => !(p a)) b = true := by
          intro b hb
          have := List.countP_eq_zero.mp hcount b hb
          simp [this]
        simp [List.eraseIdx, List.filter, hp, List.filter_eq_self.mpr hall]
      · simp only [matchIndices, hp, if_neg, if_false] at h
        obtain ⟨j, hj, herase⟩ := ih (n + 1) x h
        refine ⟨j + 1, by omega, ?_⟩
        simp [List.eraseIdx, List.filter, hp, herase]

theorem matchIndices_eq_nil (p : Asset → Bool) (l : List Asset) (n : Nat)
    (h : l.countP p = 0) : matchIndices p l n = [] := by
  have := matchIndices_length p l n
  rw [h] at this
  exact List.length_eq_zero.mp this

/-- C4: revealing an asset whose id is already present on the board leaves the
snapshot unchanged; starting from a board without that id, revealing the id
twice leaves exactly one entry with the id; and revealing preserves the
invariant that board ids are pairwise distinct. -/
theorem C4_reveal_asset_idempotent (gs : GameState) (a a' : Asset)
    (hid : a'.id = a.id) :
    ((∃ b ∈ gs.assets_on_board, b.id = a.id) → _reveal_asset gs a = gs) ∧
    (gs.assets_on_board.countP (fun b => b.id == a.id) = 0 →
      ((_reveal_asset (_reveal_asset gs a) a').assets_on_board.countP
        (fun b => b.id == a.id)) = 1) ∧
    ((gs.assets_on_board.map Asset.id).Nodup →
      (((_reveal_asset gs a).assets_on_board.map Asset.id)).Nodup) := by
  refine ⟨?_, ?_, ?_⟩
  · rintro ⟨b, hb, hbid⟩
    have : gs.assets_on_board.any (fun x => x.id == a.id) = true := by
      refine List.any_eq_true.mpr ⟨b, hb, ?_⟩
      simp [hbid]
    simp [_reveal_asset, this]
  · intro hzero
    have hnone : gs.assets_on_board.any (fun x => x.id == a.id) = false := by
      rw [List.any_eq_false]
      intro x hx
      have hx0 := List.countP_eq_zero.mp hzero x hx
      simpa using hx0
    have h1 : _reveal_asset gs a =
        { gs with assets_on_board := gs.assets_on_board ++ [a] } := by
      simp [_reveal_asset, hnone]
    have h2 : (gs.assets_on_board ++ [a]).any (fun x => x.id == a'.id) = true := by
      refine List.any_eq_true.mpr ⟨a, by simp, ?_⟩
      simp [hid]
    rw [h1]
    simp [_reveal_asset, h2, hid, List.countP_append, hzero, List.countP_cons]
  · intro hnodup
    by_cases hmem : gs.assets_on_board.any (fun x => x.id == a.id)
    · simp [_reveal_asset, hmem, hnodup]
    · have hnotin : a.id ∉ gs.assets_on_board.map Asset.id := by
        intro hc
        obtain ⟨b, hb, hbid⟩ := List.mem_map.mp hc
        have : gs.assets_on_board.any (fun x => x.id == a.id) = true :=
          List.any_eq_true.mpr ⟨b, hb, by simp [hbid]⟩
        simp [this] at hmem
      simp only [_reveal_asset, hmem, Bool.false_eq_true, if_false]
      simp only [List.map_append, List.map_cons, List.map_nil]
      refine List.Nodup.append hnodup (List.nodup_singleton _) ?_
      intro x hx hxmem
      rw [List.mem_singleton] at hxmem
      exact hnotin (hxmem ▸ hx)

/-- C4 witness: evaluation of the C4 theorem on a concrete one-asset board. -/
theorem C4_reveal_asset_idempotent_witness :
    (_reveal_asset { baseGS with assets_on_board := [{ id := 5, name := "srv" }] } { id := 5, name := "other" }) = { baseGS with assets_on_board := [{ id := 5, name := "srv" }] } :=
  (C4_reveal_asset_idempotent _ { id := 5, name := "other" }
      { id := 5, name := "other" } rfl).1 ⟨{ id := 5, name := "srv" }, by simp, rfl⟩

/-- C5: hiding an asset id with no board entry fails with the not-found error;
hiding an id present exactly once succeeds and removes exactly that entry,
leaving all other entries unchanged in order; hiding an id present more than
once fails with the internal-consistency error. -/
theorem C5_hide_asset_spec (gs : GameState) (aid : Int) :
    (gs.assets_on_board.countP (fun b => b.id == aid) = 0 →
      _hide_asset gs aid = .error hideNotFoundMsg) ∧
    (gs.assets_on_board.countP (fun b => b.id == aid) = 1 →
      _hide_asset gs aid = .ok { gs with assets_on_board := gs.assets_on_board.filter (fun b => !(b.id == aid)) }) ∧
    (gs.assets_on_board.countP (fun b => b.id == aid) > 1 →
      _hide_asset gs aid = .error hideDuplicateMsg) := by
  have hrw :
      ((gs.assets_on_board.enum.filter (fun p => p.2.id == aid)).map Prod.fst)
        = matchIndices (fun b => b.id == aid) gs.assets_on_board 0 :=
    enumFrom_filter_map_eq_matchIndices (fun b => b.id == aid) gs.assets_on_board 0
  have hlen := matchIndices_length (fun b => b.id == aid) gs.assets_on_board 0
  refine ⟨?_, ?_, ?_⟩
  · intro hzero
    have : matchIndices (fun b => b.id == aid) gs.assets_on_board 0 = [] :=
      matchIndices_eq_nil _ _ _ hzero
    simp only [_hide_asset, hrw, this]
  · intro hone
    rw [hone] at hlen
    match hidx : matchIndices (fun b => b.id == aid) gs.assets_on_board 0 with
    | [] => rw [hidx] at hlen; simp at hlen
    | _ :: _ :: _ => rw [hidx] at hlen; simp at hlen
    | [i] =>
        obtain ⟨j, hj, herase⟩ :=
          matchIndices_singleton (fun b => b.id == aid) gs.assets_on_board 0 i hidx
        simp only [_hide_asset, hrw, hidx]
        rw [hj]
        simp [herase]
  · intro hmany
    rw [hlen.symm] at hmany
    match hidx : matchIndices (fun b => b.id == aid) gs.assets_on_board 0 with
    | [] => rw [hidx] at hmany; simp at hmany
    | [_] => rw [hidx] at hmany; simp at hmany
    | _ :: _ :: _ => simp only [_hide_asset, hrw, hidx]

/-- C5 witness: evaluation of the C5 theorem on a concrete two-asset board. -/
theorem C5_hide_asset_spec_witness :
    _hide_asset { baseGS with assets_on_board := [{ id := 5, name := "srv" }, { id := 9, name := "db" }] } 5 = .ok { baseGS with assets_on_board := [{ id := 9, name := "db" }] } := by
  have h := (C5_hide_asset_spec { baseGS with assets_on_board := [{ id := 5, name := "srv" }, { id := 9, name := "db" }] } 5).2.1 (by decide)
  simpa using h

theorem alistGet_alistSet_self {κ α : Type} [DecidableEq κ]
    (m : List (κ × α)) (k : κ) (v : α) : alistGet (alistSet m k v) k = some v := by
  induction m with
  | nil => simp [alistSet, alistGet]
  | cons h t ih =>
      by_cases hk : h.1 = k
      · simp [alistSet, alistGet, hk]
      · simp only [alistSet]
        rw [show (h.1, h.2) = h from rfl]
        simp [alistGet, hk, ih]

theorem alistDel_eq_none_iff {κ α : Type} [DecidableEq κ]
    (m : List (κ × α)) (k : κ) : alistDel m k = none ↔ alistGet m k = none := by
  induction m with
  | nil => simp [alistDel, alistGet]
  | cons h t ih =>
      by_cases hk : h.1 = k
      · simp [alistDel, alistGet, hk]
      · simp [alistDel, alistGet, hk, ih]

/-- The fresh session state built by Game.__init__: Start phase, no lobby, no
connection id, no snapshot, and a CREATE_OR_JOIN_LOBBY interaction already
queued. -/
def initGameClient : GameClient where
  phase := .Start
  lobby := none
  actor_connection_id := none
  game_state := none
  offer_received := false
  interaction_buffer := [GameInteractionType.CREATE_OR_JOIN_LOBBY]

/-- Game.Input.set_lobby_player_information_for_slot: adding a player to a
lobby slot. Checks, in source order, the Lobby storage phase, the 1-based
slot index, and the presence of a lobby, then assigns the slot (a plain dict
assignment, overwriting an occupied slot) and dispatches players_changed. -/
def set_lobby_player_information_for_slot (c : GameClient) (player : Player)
    (slot : Int) : Except String (GameClient × List DispEvent) :=
  if c.phase ≠ .Lobby then
    .error "Cannot add player when game is not in lobby phase"
  else if ¬ (slot ≥ 1) then
    .error "Slot index starts at 1"
  else
    match c.lobby with
    | none => .error "Cannot add player when game is not in lobby phase"
    | some lb =>
        let lb' := { lb with players := alistSet lb.players slot player }
        .ok ({ c with lobby := some lb' }, [DispEvent.players_changed])

/-- Error text standing for the Python KeyError raised by del d[slot] on a
missing key. -/
def keyErrorMsg : String := "KeyError: slot not in lobby players"

/-- Game.Input.remove_player: removing a player from a lobby slot. The source
checks only the 1-based slot index and the presence of a lobby (there is no
storage-phase check), then deletes the slot from the dict; deleting a missing
slot raises KeyError. The player argument is unused by the source body. -/
def remove_player (c : GameClient) (_player : Player) (slot : Int) :
    Except String (GameClient × List DispEvent) :=
  if ¬ (slot ≥ 1) then
    .error "Slot index starts at 1"
  else
    match c.lobby with
    | none => .error "Cannot add player when game is not in lobby phase"
    | some lb =>
        match alistDel lb.players slot with
        | none => .error keyErrorMsg
        | some players2 =>
            .ok ({ c with lobby := some { lb with players := players2 } }, [])

/-- Game.Input.changed_slots: moving a player between lobby slots. Checks the
Lobby storage phase, reads the old slot (KeyError when missing), assigns the
new slot, deletes the old one, and dispatches players_changed. There is no
1-based index check on either slot in the source. -/
def changed_slots (c : GameClient) (_connection_id : String)
    (new_slot old_slot : Int) : Except String (GameClient × List DispEvent) :=
  if c.phase ≠ .Lobby then
    .error "Cannot set scenario when not in lobby"
  else
    match c.lobby with
    | none => .error "AttributeError: lobby is not set"
    | some lb =>
        match alistGet lb.players old_slot with
        | none => .error keyErrorMsg
        | some p =>
            match alistDel (alistSet lb.players new_slot p) old_slot with
            | none => .error keyErrorMsg
            | some players3 =>
                .ok ({ c with lobby := some { lb with players := players3 } },
                  [DispEvent.players_changed])

/-- Concrete player used by the C6 counterexample. -/
def c6player : Player := { id := 1, connection_id := "conn-1", name := "alice" }

/-- Concrete session in Running phase whose lobby still holds slot 1; used by
the C6 counterexample. -/
def c6client : GameClient where
  phase := .Running
  lobby := some { code := "L", game_options := { equipment_shop_mode := 0 }, players := [(1, c6player)], scenario := none }
  actor_connection_id := some "conn-1"
  game_state := none
  offer_received := false
  interaction_buffer := []

/-- C6 counterexample: the claim says every player-slot mutation fails with a
phase violation whenever the session phase is not Lobby, but remove_player
performs no phase check: in Running phase, removing occupied slot 1 succeeds
and deletes the slot. -/
theorem C6_remove_player_no_phase_check_counterexample :
    remove_player c6client c6player 1 = .ok ({ c6client with lobby := some { code := "L", game_options := { equipment_shop_mode := 0 }, players := [], scenario := none } }, []) ∧ c6client.phase ≠ GameStoragePhase.Lobby := by
  constructor
  · rfl
  · decide

/-- C6 (amended): adding and changing a lobby slot fail with a phase
violation whenever the session phase is not Lobby, while removing performs no
phase check and succeeds in any phase once the slot index is at least 1, a
lobby is set and the slot is occupied; add and remove reject slot indices
below 1; adding to an occupied slot overwrites it; and removing a slot that
is not present in the slot map is an error. -/
theorem C6_player_slot_mutations_amended :
    (∀ c p slot, c.phase ≠ GameStoragePhase.Lobby →
      set_lobby_player_information_for_slot c p slot = .error "Cannot add player when game is not in lobby phase") ∧
    (∀ c cid ns os, c.phase ≠ GameStoragePhase.Lobby →
      changed_slots c cid ns os = .error "Cannot set scenario when not in lobby") ∧
    (∀ c p slot lb p0, slot ≥ 1 → c.lobby = some lb →
      alistGet lb.players slot = some p0 →
      ∃ out, remove_player c p slot = .ok out) ∧
    (∀ c p slot, c.phase = GameStoragePhase.Lobby → slot < 1 →
      set_lobby_player_information_for_slot c p slot = .error "Slot index starts at 1") ∧
    (∀ c p slot, slot < 1 →
      remove_player c p slot = .error "Slot index starts at 1") ∧
    (∀ c p slot lb, c.phase = GameStoragePhase.Lobby → slot ≥ 1 →
      c.lobby = some lb →
      ∃ c' evs lb', set_lobby_player_information_for_slot c p slot = .ok (c', evs) ∧
        c'.lobby = some lb' ∧ alistGet lb'.players slot = some p) ∧
    (∀ c p slot lb, slot ≥ 1 → c.lobby = some lb →
      alistGet lb.players slot = none →
      remove_player c p slot = .error keyErrorMsg) := by
  refine ⟨?_, ?_, ?_, ?_, ?_, ?_, ?_⟩
  · intro c p slot h
    simp [set_lobby_player_information_for_slot, h]
  · intro c cid ns os h
    simp [changed_slots, h]
  · intro c p slot lb p0 hslot hlb hget
    have hdel : alistDel lb.players slot ≠ none := by
      intro hc
      rw [alistDel_eq_none_iff] at hc
      simp [hget] at hc
    match hd : alistDel lb.players slot with
    | none => exact absurd hd hdel
    | some players2 =>
        refine ⟨({ c with lobby := some { lb with players := players2 } }, []), ?_⟩
        simp only [remove_player, hlb, hd]
        rw [if_neg (by simp [hslot])]
  · intro c p slot hphase hslot
    simp only [set_lobby_player_information_for_slot, hphase]
    simp only [ne_eq, not_true_eq_false, if_false, if_neg]
    rw [if_pos (by omega)]
  · intro c p slot hslot
    simp only [remove_player]
    rw [if_pos (by omega)]
  · intro c p slot lb hphase hslot hlb
    refine ⟨{ c with lobby := some { lb with players := alistSet lb.players slot p } }, [DispEvent.players_changed], { lb with players := alistSet lb.players slot p }, ?_, rfl, alistGet_alistSet_self lb.players slot p⟩
    simp only [set_lobby_player_information_for_slot, hphase]
    rw [if_neg (by simp), if_neg (by simp [hslot]), hlb]
  · intro c p slot lb hslot hlb hget
    have hdel : alistDel lb.players slot = none :=
      (alistDel_eq_none_iff lb.players slot).mpr hget
    simp only [remove_player, hlb, hdel]
    rw [if_neg (by omega)]

/-- C6 witness: evaluation of the amended C6 theorem on concrete inputs (the
add-phase-violation part in Running phase and the overwrite part in a Lobby
phase client). -/
theorem C6_player_slot_mutations_amended_witness :
    set_lobby_player_information_for_slot c6client c6player 2 = .error "Cannot add player when game is not in lobby phase" ∧
    (∃ c' evs lb', set_lobby_player_information_for_slot { c6client with phase := .Lobby } c6player 1 = .ok (c', evs) ∧ c'.lobby = some lb' ∧ alistGet lb'.players 1 = some c6player) :=
  ⟨C6_player_slot_mutations_amended.1 c6client c6player 2 (by decide),
   C6_player_slot_mutations_amended.2.2.2.2.2.1 { c6client with phase := .Lobby }
     c6player 1 _ rfl (by omega) rfl⟩

/-- Python inequality of the stored scenario against the incoming one, as
evaluated by set_lobby_information (self.game.lobby.scenario != lobby.scenario).
The stored scenario is a model-layer dataclass (penquest_pkgs/model) while the
incoming one is a message-layer object (network/game_messages/message_models),
so for two present scenarios the dataclass __eq__ returns NotImplemented
across classes and Python falls back to object identity: two present
scenarios always compare unequal, and the comparison is equal exactly when
both sides are None. -/
def crossLayerScenarioNe (stored incoming : Option ScenarioTeaser) : Bool :=
  !(stored.isNone && incoming.isNone)

/-- Game.Input.set_lobby_information: legal only in Start or Lobby storage
phase; computes the scenario_changed flag with the cross-layer comparison,
replaces the lobby wholesale (map_message2model copies every field), moves
the storage phase to Lobby, dispatches lobby_changed and then
game_storage_phase_changed, and dispatches scenario_changed afterwards when
the flag was set. -/
def set_lobby_information (c : GameClient) (lobby : Lobby) :
    Except String (GameClient × List DispEvent) :=
  if c.phase = .Start ∨ c.phase = .Lobby then
    let scenario_changed :=
      match c.lobby with
      | none => false
      | some prev => crossLayerScenarioNe prev.scenario lobby.scenario
    let c' := { c with lobby := some lobby, phase := .Lobby }
    .ok (c', [DispEvent.lobby_changed, DispEvent.game_storage_phase_changed]
      ++ (if scenario_changed then [DispEvent.scenario_changed] else []))
  else
    .error "Cannot set lobby information when game is not in start or lobby phase"

/-- Concrete scenario used by the C1 counterexample. -/
def c1scn : ScenarioTeaser := { id := "scn-1", name := "intro" }

/-- Concrete incoming lobby whose scenario is c1scn; used by the C1
counterexample. -/
def c1msg : Lobby where
  code := "ABCD"
  game_options := { equipment_shop_mode := 0 }
  players := []
  scenario := some c1scn

/-- Concrete session in Lobby phase that already stores exactly the lobby of
c1msg; used by the C1 counterexample. -/
def c1client : GameClient where
  phase := .Lobby
  lobby := some c1msg
  actor_connection_id := none
  game_state := none
  offer_received := false
  interaction_buffer := []

/-- C1 counterexample: the claim says scenario-changed is dispatched iff a
previous lobby existed and its scenario differs from the new one, but when
the stored lobby equals the incoming lobby field by field (so the scenarios
do not differ), the handler still dispatches scenario_changed, because the
comparison crosses the model/message layers and two present scenarios never
compare equal. -/
theorem C1_set_lobby_information_counterexample :
    c1client.lobby = some c1msg ∧
    (set_lobby_information c1client c1msg).map Prod.snd = .ok [DispEvent.lobby_changed, DispEvent.game_storage_phase_changed, DispEvent.scenario_changed] := by
  constructor
  · rfl
  · rfl

/-- C1 (amended): handling an inbound lobby-info message outside Start and
Lobby phases errors; in Start or Lobby it replaces the stored lobby wholesale
with the received one, sets the storage phase to Lobby, dispatches exactly
one lobby_changed and exactly one game_storage_phase_changed event, and
dispatches scenario_changed exactly once iff a previous lobby existed and not
both its scenario and the new scenario are absent (the cross-layer comparison
regards every present scenario as changed); all other session fields,
including the interaction queue, are unchanged. In particular a client in
Start phase receiving lobby info with code ABCD ends in phase Lobby with that
lobby stored. -/
theorem C1_set_lobby_information_amended (c : GameClient) (msg : Lobby) :
    (¬(c.phase = GameStoragePhase.Start ∨ c.phase = GameStoragePhase.Lobby) →
      set_lobby_information c msg = .error "Cannot set lobby information when game is not in start or lobby phase") ∧
    ((c.phase = GameStoragePhase.Start ∨ c.phase = GameStoragePhase.Lobby) →
      ∃ evs, set_lobby_information c msg = .ok ({ c with lobby := some msg, phase := .Lobby }, evs) ∧
        evs.count DispEvent.lobby_changed = 1 ∧
        evs.count DispEvent.game_storage_phase_changed = 1 ∧
        evs.count DispEvent.scenario_changed =
          (match c.lobby with
            | none => 0
            | some prev => if prev.scenario = none ∧ msg.scenario = none then 0 else 1)) := by
  constructor
  · intro h
    simp [set_lobby_information, h]
  · intro h
    refine ⟨[DispEvent.lobby_changed, DispEvent.game_storage_phase_changed] ++ (if (match c.lobby with | none => false | some prev => crossLayerScenarioNe prev.scenario msg.scenario) then [DispEvent.scenario_changed] else []), ?_, ?_⟩
    · simp only [set_lobby_information, if_pos h]
    · match hl : c.lobby with
      | none => simp [hl]
      | some prev =>
          match hps : prev.scenario, hms : msg.scenario with
          | none, none =>
              simp only [hl, hps, hms, crossLayerScenarioNe]
              decide
          | none, some s =>
              simp only [hl, hps, hms, crossLayerScenarioNe]
              simp only [Option.isNone_none, Option.isNone_some, Bool.and_false, Bool.not_false, if_true]
              simp
          | some s, none =>
              simp only [hl, hps, hms, crossLayerScenarioNe]
              simp only [Option.isNone_none, Option.isNone_some, Bool.false_and, Bool.not_false, if_true]
              simp
          | some s, some t =>
              simp only [hl, hps, hms, crossLayerScenarioNe]
              simp only [Option.isNone_some, Bool.false_and, Bool.not_false, if_true]
              simp

/-- C1 witness: evaluation of the amended C1 theorem on the fresh session in
Start phase receiving a lobby with code ABCD. -/
theorem C1_set_lobby_information_amended_witness :
    ∃ evs, set_lobby_information initGameClient c1msg = .ok ({ initGameClient with lobby := some c1msg, phase := .Lobby }, evs) ∧
      evs.count DispEvent.lobby_changed = 1 ∧
      evs.count DispEvent.game_storage_phase_changed = 1 ∧
      evs.count DispEvent.scenario_changed =
        (match initGameClient.lobby with
          | none => 0
          | some prev => if prev.scenario = none ∧ c1msg.scenario = none then 0 else 1) :=
  (C1_set_lobby_information_amended initGameClient c1msg).2 (Or.inl rfl)

/-- Result of a handler that may suspend: blocked models the
_await_correct_game_storage_phase suspension of Game.Input while the storage
phase is not yet one of the accepted phases. -/
inductive StepResult (α : Type) where
  | ok (a : α)
  | error (msg : String)
  | blocked
deriving DecidableEq, Repr

/-- GAME_PHASE_MAP from penquest_pkgs/game/Game.py: wire phase name to its
numeric value. -/
def GAME_PHASE_MAP : List (String × Int) :=
  [("Starting", 0), ("InitDraw", 1), ("Shopping", 2), ("Attack", 3), ("Defense", 4), ("Ended", 5)]

/-- The ExternalGamePhase(int) enum constructor: the enum has members with
values 0, 1, 3, 4 and 5, and raises ValueError (none) on any other value,
including the 2 that GAME_PHASE_MAP assigns to Shopping. -/
def externalGamePhaseOfInt : Int → Option ExternalGamePhase
  | 0 => some .Starting
  | 1 => some .InitDraw
  | 3 => some .Attacker
  | 4 => some .Defender
  | 5 => some .Ended
  | _ => none

/-- Game.get_player_role with its default argument: none when there is no
snapshot, otherwise the role stored under the session connection id. -/
def get_player_role (c : GameClient) : Option Actor :=
  match c.game_state with
  | none => none
  | some gs =>
      match gs.actor_connection_id with
      | none => none
      | some cid => alistGet gs.roles cid

/-- Game._is_my_turn: errors outside Running/Ended storage phase or without a
snapshot, answers false without a resolved local role or outside the Attacker
and Defender phases, and otherwise matches the role type against the phase. -/
def _is_my_turn (c : GameClient) (current_phase : ExternalGamePhase) :
    Except String Bool :=
  if c.phase ≠ .Running ∧ c.phase ≠ .Ended then
    .error "Cannot advance game phase when game is not running"
  else
    match c.game_state with
    | none => .error "Cannot start game if game state is not set"
    | some _ =>
        match get_player_role c with
        | none => .ok false
        | some role =>
            if current_phase ≠ .Attacker ∧ current_phase ≠ .Defender then .ok false
            else .ok ((role.type == "attacker" && current_phase == ExternalGamePhase.Attacker)
              || (role.type == "defender" && current_phase == ExternalGamePhase.Defender))

/-- Game.Input.set_game_phase: suspends (blocked) until the storage phase is
Running or Ended, requires a snapshot, converts the wire phase name through
GAME_PHASE_MAP and the ExternalGamePhase constructor, derives the internal
phase from _is_my_turn, replaces the snapshot phases, dispatches
game_phase_changed, and then queues at most one interaction: CHOOSE_ACTION on
InitDraw; on the local turn SHOPPING_PHASE or PLAY_CARD in turn 1 (reading
the equipment shop mode from the lobby, whose absence would be a Python
AttributeError) and CHOOSE_ACTION in later turns. -/
def set_game_phase (c : GameClient) (game_phase : String) :
    StepResult (GameClient × List DispEvent) :=
  if c.phase ≠ .Running ∧ c.phase ≠ .Ended then .blocked
  else
    match c.game_state with
    | none => .error "Cannot start game if game state is not set"
    | some gs =>
        match alistGet GAME_PHASE_MAP game_phase with
        | none => .error "Unknown game phase"
        | some n =>
            match externalGamePhaseOfInt n with
            | none => .error "ValueError: not a valid ExternalGamePhase"
            | some ext =>
                match _is_my_turn c ext with
                | .error e => .error e
                | .ok is_my_turn =>
                    let internal_phase := if is_my_turn then InternalGamePhase.Shopping else InternalGamePhase.Idle
                    let gs' := { gs with external_phase := ext, internal_phase := internal_phase }
                    let interaction_type : Except String (Option GameInteractionType) :=
                      if ext = .InitDraw then .ok (some .CHOOSE_ACTION)
                      else if is_my_turn then
                        if gs.turn = 1 then
                          match c.lobby with
                          | none => .error "AttributeError: lobby is not set"
                          | some lb =>
                              if internal_phase = .Shopping ∧ lb.game_options.equipment_shop_mode > 0
                              then .ok (some .SHOPPING_PHASE)
                              else .ok (some .PLAY_CARD)
                        else .ok (some .CHOOSE_ACTION)
                      else .ok none
                    match interaction_type with
                    | .error e => .error e
                    | .ok it =>
                        .ok ({ c with game_state := some gs', interaction_buffer := c.interaction_buffer ++ (match it with | none => [] | some t => [t]) }, [DispEvent.game_phase_changed])

/-- C2: with the session in Running or Ended phase, a snapshot and a lobby
present, and a resolved local role, set_game_phase on a valid wire phase name
resolves the local turn from the phase and the role type (attacker acts on
Attacker, defender on Defender), stores Shopping as internal phase on the
local turn and Idle otherwise, and queues exactly the claimed interaction:
CHOOSE_ACTION on InitDraw, SHOPPING_PHASE or PLAY_CARD (by the equipment-shop
option) on the local turn in turn 1, CHOOSE_ACTION on the local turn in later
turns, and nothing when it is not the local turn. -/
theorem C2_set_game_phase_spec (c : GameClient) (gs : GameState) (lb : Lobby)
    (cid : String) (role : Actor) (s : String) (n : Int) (ext : ExternalGamePhase)
    (hphase : c.phase = GameStoragePhase.Running ∨ c.phase = GameStoragePhase.Ended)
    (hgs : c.game_state = some gs)
    (hlb : c.lobby = some lb)
    (hcid : gs.actor_connection_id = some cid)
    (hrole : alistGet gs.roles cid = some role)
    (hmap : alistGet GAME_PHASE_MAP s = some n)
    (hext : externalGamePhaseOfInt n = some ext) :
    set_game_phase c s = .ok ({ c with game_state := some { gs with external_phase := ext, internal_phase := if (role.type = "attacker" ∧ ext = ExternalGamePhase.Attacker) ∨ (role.type = "defender" ∧ ext = ExternalGamePhase.Defender) then InternalGamePhase.Shopping else InternalGamePhase.Idle }, interaction_buffer := c.interaction_buffer ++ (if ext = ExternalGamePhase.InitDraw then [GameInteractionType.CHOOSE_ACTION] else if (role.type = "attacker" ∧ ext = ExternalGamePhase.Attacker) ∨ (role.type = "defender" ∧ ext = ExternalGamePhase.Defender) then (if gs.turn = 1 then (if lb.game_options.equipment_shop_mode > 0 then [GameInteractionType.SHOPPING_PHASE] else [GameInteractionType.PLAY_CARD]) else [GameInteractionType.CHOOSE_ACTION]) else []) }, [DispEvent.game_phase_changed]) := by
  have hearly : ¬(c.phase ≠ GameStoragePhase.Running ∧ c.phase ≠ GameStoragePhase.Ended) := by
    rcases hphase with h | h <;> simp [h]
  have hmt : _is_my_turn c ext =
      .ok ((role.type == "attacker" && ext == ExternalGamePhase.Attacker)
        || (role.type == "defender" && ext == ExternalGamePhase.Defender)) := by
    simp only [_is_my_turn, get_player_role, hgs, hcid, hrole]
    rw [if_neg hearly]
    by_cases hAD : ext ≠ ExternalGamePhase.Attacker ∧ ext ≠ ExternalGamePhase.Defender
    · rw [if_pos hAD]
      rcases hAD with ⟨h1, h2⟩
      simp [h1, h2]
    · rw [if_neg hAD]
  simp only [set_game_phase, hgs, hmap, hext, hmt]
  rw [if_neg hearly]
  by_cases hmtP : (role.type = "attacker" ∧ ext = ExternalGamePhase.Attacker)
      ∨ (role.type = "defender" ∧ ext = ExternalGamePhase.Defender)
  · have hb : ((role.type == "attacker" && ext == ExternalGamePhase.Attacker)
        || (role.type == "defender" && ext == ExternalGamePhase.Defender)) = true := by
      simp only [Bool.or_eq_true, Bool.and_eq_true, beq_iff_eq]
      exact hmtP
    have hnInit : ext ≠ ExternalGamePhase.InitDraw := by
      rcases hmtP with ⟨_, h⟩ | ⟨_, h⟩ <;> simp [h]
    rw [hb]
    simp only [hlb]
    by_cases hturn : gs.turn = 1
    · by_cases hmode : lb.game_options.equipment_shop_mode > 0
      · simp [hmtP, hnInit, hturn, hmode]
      · simp [hmtP, hnInit, hturn, hmode]
    · simp [hmtP, hnInit, hturn]
  · have hb : ((role.type == "attacker" && ext == ExternalGamePhase.Attacker)
        || (role.type == "defender" && ext == ExternalGamePhase.Defender)) = false := by
      simp only [Bool.or_eq_false_iff, Bool.and_eq_false_iff]
      constructor
      · by_cases h1 : role.type = "attacker"
        · right
          by_cases h2 : ext = ExternalGamePhase.Attacker
          · exact absurd (Or.inl ⟨h1, h2⟩) hmtP
          · simp [h2]
        · left
          simp [h1]
      · by_cases h1 : role.type = "defender"
        · right
          by_cases h2 : ext = ExternalGamePhase.Defender
          · exact absurd (Or.inr ⟨h1, h2⟩) hmtP
          · simp [h2]
        · left
          simp [h1]
    rw [hb]
    by_cases hinit : ext = ExternalGamePhase.InitDraw
    · simp [hmtP, hinit]
    · simp [hmtP, hinit]

/-- Defender actor used in the C2 witness and other concrete game states. -/
def defRole : Actor where
  id := "role-2"
  type := "defender"
  connection_id := "conn-d"
  visible_assets := []
  assets := []
  actions := []
  equipment := []

/-- Concrete running session of a defender; used by the C2 witness. -/
def c2client : GameClient where
  phase := .Running
  lobby := some { code := "L", game_options := { equipment_shop_mode := 1 }, players := [], scenario := none }
  actor_connection_id := some "conn-d"
  game_state := some { baseGS with actor_connection_id := some "conn-d", roles := [("conn-d", defRole)], turn := 1 }
  offer_received := false
  interaction_buffer := []

/-- C2 witness: evaluation of the C2 theorem on the defender session
receiving the Attack phase; the resolved turn is not local, the internal
phase becomes Idle, and no interaction is queued. -/
theorem C2_set_game_phase_spec_witness :
    set_game_phase c2client "Attack" = .ok ({ c2client with game_state := some { { baseGS with actor_connection_id := some "conn-d", roles := [("conn-d", defRole)], turn := 1 } with external_phase := ExternalGamePhase.Attacker, internal_phase := if (defRole.type = "attacker" ∧ ExternalGamePhase.Attacker = ExternalGamePhase.Attacker) ∨ (defRole.type = "defender" ∧ ExternalGamePhase.Attacker = ExternalGamePhase.Defender) then InternalGamePhase.Shopping else InternalGamePhase.Idle }, interaction_buffer := c2client.interaction_buffer ++ (if ExternalGamePhase.Attacker = ExternalGamePhase.InitDraw then [GameInteractionType.CHOOSE_ACTION] else if (defRole.type = "attacker" ∧ ExternalGamePhase.Attacker = ExternalGamePhase.Attacker) ∨ (defRole.type = "defender" ∧ ExternalGamePhase.Attacker = ExternalGamePhase.Defender) then (if (1:Int) = 1 then (if (1:Int) > 0 then [GameInteractionType.SHOPPING_PHASE] else [GameInteractionType.PLAY_CARD]) else [GameInteractionType.CHOOSE_ACTION]) else []) }, [DispEvent.game_phase_changed]) :=
  C2_set_game_phase_spec c2client _ _ "conn-d" defRole "Attack" 3 ExternalGamePhase.Attacker (Or.inl rfl) rfl rfl rfl rfl rfl rfl

/-- The Game message of network/game_messages/message_models.py (the payload
of a game-started event), restricted to the fields start_game and
set_players_and_roles inspect. Named GameMsg because the session class is
already called Game in the source. -/
structure GameMsg where
  scenario_id : String
  amount_selection : Int
  players : List Player
  roles : List (String × Actor)
  shop : List Equipment
deriving DecidableEq, Repr

/-- The board-population loop of set_players_and_roles: appends each asset of
xs to the board unless an asset with the same id is already there
(Python membership via Asset.__eq__, which compares ids). -/
def addAssetsDedup (board : List Asset) : List Asset → List Asset
  | [] => board
  | a :: rest =>
      if board.any (fun x => x.id == a.id) then addAssetsDedup board rest
      else addAssetsDedup (board ++ [a]) rest

theorem addAssetsDedup_superset (xs : List Asset) :
    ∀ (board : List Asset) (b : Asset), b ∈ board → b ∈ addAssetsDedup board xs := by
  induction xs with
  | nil => intro board b hb; exact hb
  | cons a rest ih =>
      intro board b hb
      by_cases h : board.any (fun x => x.id == a.id)
      · simp only [addAssetsDedup, h, if_true]
        exact ih board b hb
      · simp only [addAssetsDedup, h, Bool.false_eq_true, if_false]
        exact ih (board ++ [a]) b (List.mem_append_left _ hb)

theorem addAssetsDedup_nodup (xs : List Asset) :
    ∀ (board : List Asset), (board.map Asset.id).Nodup →
      ((addAssetsDedup board xs).map Asset.id).Nodup := by
  induction xs with
  | nil => intro board h; exact h
  | cons a rest ih =>
      intro board h
      by_cases hmem : board.any (fun x => x.id == a.id)
      · simp only [addAssetsDedup, hmem, if_true]
        exact ih board h
      · simp only [addAssetsDedup, hmem, Bool.false_eq_true, if_false]
        refine ih (board ++ [a]) ?_
        simp only [List.map_append, List.map_cons, List.map_nil]
        refine List.Nodup.append h (List.nodup_singleton _) ?_
        intro x hx hxmem
        rw [List.mem_singleton] at hxmem
        obtain ⟨b, hb, hbid⟩ := List.mem_map.mp hx
        have : board.any (fun x => x.id == a.id) = true :=
          List.any_eq_true.mpr ⟨b, hb, by simp [hbid, hxmem]⟩
        simp [this] at hmem

theorem addAssetsDedup_subset (xs : List Asset) :
    ∀ (board : List Asset) (b : Asset), b ∈ addAssetsDedup board xs →
      b ∈ board ∨ b ∈ xs := by
  induction xs with
  | nil => intro board b hb; exact Or.inl hb
  | cons a rest ih =>
      intro board b hb
      by_cases h : board.any (fun x => x.id == a.id)
      · simp only [addAssetsDedup, h, if_true] at hb
        rcases ih board b hb with h1 | h1
        · exact Or.inl h1
        · exact Or.inr (List.mem_cons_of_mem _ h1)
      · simp only [addAssetsDedup, h, Bool.false_eq_true, if_false] at hb
        rcases ih (board ++ [a]) b hb with h1 | h1
        · rcases List.mem_append.mp h1 with h2 | h2
          · exact Or.inl h2
          · rw [List.mem_singleton] at h2
            exact Or.inr (h2 ▸ List.mem_cons_self a rest)
        · exact Or.inr (List.mem_cons_of_mem _ h1)

theorem addAssetsDedup_covers (xs : List Asset) :
    ∀ (board : List Asset) (a : Asset), a ∈ xs →
      ∃ b ∈ addAssetsDedup board xs, b.id = a.id := by
  induction xs with
  | nil => intro board a ha; simp at ha
  | cons x rest ih =>
      intro board a ha
      rcases List.mem_cons.mp ha with rfl | ha
      · by_cases h : board.any (fun y => y.id == a.id)
        · obtain ⟨b, hb, hbid⟩ := List.any_eq_true.mp h
          refine ⟨b, ?_, by simpa using hbid⟩
          simp only [addAssetsDedup, h, if_true]
          exact addAssetsDedup_superset rest board b hb
        · refine ⟨a, ?_, rfl⟩
          simp only [addAssetsDedup, h, Bool.false_eq_true, if_false]
          exact addAssetsDedup_superset rest (board ++ [a]) a (by simp)
      · by_cases h : board.any (fun y => y.id == x.id)
        · simp only [addAssetsDedup, h, if_true]
          exact ih board a ha
        · simp only [addAssetsDedup, h, Bool.false_eq_true, if_false]
          exact ih (board ++ [x]) a ha

/-- Game.Input.set_players_and_roles: requires the Running storage phase, a
snapshot, a connection id and the local role in the incoming role map; stores
the whole role map on the snapshot, populates the board with the visible
assets of the local role (plus its own assets for a defender) skipping ids
already present, appends the role actions to the hand and the role equipment
to the equipment list, and dispatches board, hand, equipment and role change
events. The players argument is unused by the source body. -/
def set_players_and_roles (c : GameClient) (_players : List Player)
    (roles : List (String × Actor)) : Except String (GameClient × List DispEvent) :=
  if c.phase ≠ .Running then .error "Cannot set players when game is not running"
  else
    match c.game_state with
    | none => .error "Cannot start game if game state is not set"
    | some gs =>
        match gs.actor_connection_id with
        | none => .error "Cannot start game when player id or connection id is not set"
        | some cid =>
            match alistGet roles cid with
            | none => .error "Did not find role of this player in game"
            | some role =>
                let board1 := addAssetsDedup gs.assets_on_board role.visible_assets
                let board2 := if role.type == "defender" then addAssetsDedup board1 role.assets else board1
                let gs4 := { gs with roles := roles, assets_on_board := board2, hand := gs.hand ++ role.actions, equipment := gs.equipment ++ role.equipment }
                .ok ({ c with game_state := some gs4 }, [DispEvent.board_changed, DispEvent.hand_changed, DispEvent.equipment_changed, DispEvent.player_role_changed])

/-- Game.Input.start_game: legal only from the Lobby storage phase with a
lobby, a selected scenario matching the incoming scenario id, a connection id
and the local role present in the incoming role map; builds the initial
snapshot from the lobby (code, scenario, options, shop, selection amount and
dataclass defaults elsewhere), moves the storage phase to Running, dispatches
the storage phase change, applies set_players_and_roles and dispatches
game_started. No interaction is queued. -/
def start_game (c : GameClient) (game : GameMsg) :
    Except String (GameClient × List DispEvent) :=
  if c.phase ≠ .Lobby then .error "Cannot start game when game is not in lobby phase"
  else
    match c.lobby with
    | none => .error "Cannot start game if lobby is not set"
    | some lb =>
        match lb.scenario with
        | none => .error "Scenario of lobby is not the same as scenario of game"
        | some scn =>
            if scn.id ≠ game.scenario_id then
              .error "Scenario of lobby is not the same as scenario of game"
            else
              match c.actor_connection_id with
              | none => .error "Cannot start game when player id or connection id is not set"
              | some cid =>
                  match alistGet game.roles cid with
                  | none => .error "Did not find role of this player in game"
                  | some _ =>
                      let gs0 : GameState := { name := lb.code, scenario := some scn, from_lobby := some lb, game_options := lb.game_options, actor_connection_id := some cid, players := [], turn := 1, external_phase := .Starting, internal_phase := .Idle, end_state := none, roles := [], shop := game.shop, hand := [], equipment := [], assets_on_board := [], selection_choices := [], selection_amount := game.amount_selection }
                      let c1 := { c with game_state := some gs0, phase := .Running }
                      match set_players_and_roles c1 game.players game.roles with
                      | .error e => .error e
                      | .ok (c2, evs2) => .ok (c2, [DispEvent.game_storage_phase_changed] ++ evs2 ++ [DispEvent.game_started])

theorem start_game_ok (c : GameClient) (g : GameMsg) (lb : Lobby)
    (scn : ScenarioTeaser) (cid : String) (role : Actor)
    (hphase : c.phase = GameStoragePhase.Lobby) (hlb : c.lobby = some lb)
    (hscn : lb.scenario = some scn) (hid : scn.id = g.scenario_id)
    (hcid : c.actor_connection_id = some cid)
    (hrole : alistGet g.roles cid = some role) :
    start_game c g = .ok ({ c with phase := .Running, game_state := some { name := lb.code, scenario := some scn, from_lobby := some lb, game_options := lb.game_options, actor_connection_id := some cid, players := [], turn := 1, external_phase := .Starting, internal_phase := .Idle, end_state := none, roles := g.roles, shop := g.shop, hand := role.actions, equipment := role.equipment, assets_on_board := (if role.type == "defender" then addAssetsDedup (addAssetsDedup [] role.visible_assets) role.assets else addAssetsDedup [] role.visible_assets), selection_choices := [], selection_amount := g.amount_selection } }, [DispEvent.game_storage_phase_changed, DispEvent.board_changed, DispEvent.hand_changed, DispEvent.equipment_changed, DispEvent.player_role_changed, DispEvent.game_started]) := by
  simp [start_game, set_players_and_roles, hphase, hlb, hscn, hcid, hrole, hid]

/-- C3: start_game succeeds exactly when the session phase is Lobby, a lobby
with a selected scenario matching the incoming scenario id is set, the local
connection id is set and appears in the incoming role map; on success the
phase becomes Running and the snapshot carries the incoming role map, the
local role hand and equipment, and a board populated from the local role with
pairwise distinct asset ids covering exactly the role assets, while the
interaction queue is unchanged. -/
theorem C3_start_game_spec (c : GameClient) (g : GameMsg) :
    ((∃ out, start_game c g = .ok out) ↔
      (c.phase = GameStoragePhase.Lobby ∧ ∃ lb, c.lobby = some lb ∧ (∃ scn, lb.scenario = some scn ∧ scn.id = g.scenario_id) ∧ ∃ cid, c.actor_connection_id = some cid ∧ ∃ role, alistGet g.roles cid = some role)) ∧
    (∀ lb scn cid role, c.phase = GameStoragePhase.Lobby → c.lobby = some lb →
      lb.scenario = some scn → scn.id = g.scenario_id →
      c.actor_connection_id = some cid → alistGet g.roles cid = some role →
      ∃ c' evs gs, start_game c g = .ok (c', evs) ∧
        c'.phase = GameStoragePhase.Running ∧ c'.game_state = some gs ∧
        gs.roles = g.roles ∧ gs.hand = role.actions ∧ gs.equipment = role.equipment ∧
        (gs.assets_on_board.map Asset.id).Nodup ∧
        (∀ a ∈ gs.assets_on_board, a ∈ role.visible_assets ++ (if role.type = "defender" then role.assets else [])) ∧
        (∀ a ∈ role.visible_assets ++ (if role.type = "defender" then role.assets else []), ∃ b ∈ gs.assets_on_board, b.id = a.id) ∧
        c'.interaction_buffer = c.interaction_buffer) := by
  constructor
  · constructor
    · rintro ⟨out, hout⟩
      by_cases h1 : c.phase = GameStoragePhase.Lobby
      · match hl : c.lobby with
        | none => simp [start_game, h1, hl] at hout
        | some lb =>
            match hs : lb.scenario with
            | none => simp [start_game, h1, hl, hs] at hout
            | some scn =>
                by_cases h2 : scn.id = g.scenario_id
                · match hc : c.actor_connection_id with
                  | none => simp [start_game, h1, hl, hs, h2, hc] at hout
                  | some cid =>
                      match hr : alistGet g.roles cid with
                      | none => simp [start_game, h1, hl, hs, h2, hc, hr] at hout
                      | some role =>
                          exact ⟨h1, lb, rfl, ⟨scn, hs, h2⟩, cid, rfl, role, hr⟩
                · simp [start_game, h1, hl, hs, h2] at hout
      · simp [start_game, h1] at hout
    · rintro ⟨h1, lb, hl, ⟨scn, hs, h2⟩, cid, hc, role, hr⟩
      exact ⟨_, start_game_ok c g lb scn cid role h1 hl hs h2 hc hr⟩
  · intro lb scn cid role h1 hl hs h2 hc hr
    refine ⟨_, _, _, start_game_ok c g lb scn cid role h1 hl hs h2 hc hr, rfl, rfl, rfl, rfl, rfl, ?_, ?_, ?_, rfl⟩
    · by_cases hdef : role.type == "defender"
      · simp only [hdef, if_true]
        exact addAssetsDedup_nodup role.assets _ (addAssetsDedup_nodup role.visible_assets [] (by simp))
      · simp only [hdef, Bool.false_eq_true, if_false]
        exact addAssetsDedup_nodup role.visible_assets [] (by simp)
    · intro a ha
      by_cases hdef : role.type = "defender"
      · simp only [show (role.type == "defender") = true from by simp [hdef], if_true] at ha
        rw [List.mem_append]
        rcases addAssetsDedup_subset role.assets _ a ha with h3 | h3
        · rcases addAssetsDedup_subset role.visible_assets [] a h3 with h4 | h4
          · simp at h4
          · exact Or.inl h4
        · simp only [hdef, if_true]
          exact Or.inr h3
      · simp only [show (role.type == "defender") = false from by simp [hdef], Bool.false_eq_true, if_false] at ha
        rw [List.mem_append]
        rcases addAssetsDedup_subset role.visible_assets [] a ha with h3 | h3
        · simp at h3
        · exact Or.inl h3
    · intro a ha
      rw [List.mem_append] at ha
      by_cases hdef : role.type = "defender"
      · simp only [show (role.type == "defender") = true from by simp [hdef], if_true]
        rcases ha with h3 | h3
        · obtain ⟨b, hb, hbid⟩ := addAssetsDedup_covers role.visible_assets [] a h3
          exact ⟨b, addAssetsDedup_superset role.assets _ b hb, hbid⟩
        · simp only [hdef, if_true] at h3
          exact addAssetsDedup_covers role.assets _ a h3
      · simp only [show (role.type == "defender") = false from by simp [hdef], Bool.false_eq_true, if_false]
        rcases ha with h3 | h3
        · exact addAssetsDedup_covers role.visible_assets [] a h3
        · simp only [hdef, if_false] at h3
          simp at h3

/-- Concrete scenario used by the C3 witness. -/
def c3scn : ScenarioTeaser := { id := "scn-1", name := "intro" }

/-- Concrete lobby with selected scenario c3scn; used by the C3 witness. -/
def c3lobby : Lobby where
  code := "ABCD"
  game_options := { equipment_shop_mode := 1 }
  players := []
  scenario := some c3scn

/-- Concrete defender role holding assets; used by the C3 witness. -/
def c3role : Actor :=
  { defRole with visible_assets := [{ id := 5, name := "srv" }], assets := [{ id := 5, name := "srv" }, { id := 9, name := "db" }] }

/-- Concrete lobby-phase session with a selected scenario; used by the C3
witness. -/
def c3client : GameClient where
  phase := .Lobby
  lobby := some c3lobby
  actor_connection_id := some "conn-d"
  game_state := none
  offer_received := false
  interaction_buffer := []

/-- Concrete game-started message matching the lobby scenario of c3client and
carrying the local defender role; used by the C3 witness. -/
def c3game : GameMsg where
  scenario_id := "scn-1"
  amount_selection := 2
  players := []
  roles := [("conn-d", c3role)]
  shop := []

/-- C3 witness: evaluation of the C3 theorem on the concrete lobby session
and game-started message. -/
theorem C3_start_game_spec_witness :
    ∃ c' evs gs, start_game c3client c3game = .ok (c', evs) ∧
      c'.phase = GameStoragePhase.Running ∧ c'.game_state = some gs ∧
      gs.roles = c3game.roles ∧ gs.hand = c3role.actions ∧ gs.equipment = c3role.equipment ∧
      (gs.assets_on_board.map Asset.id).Nodup ∧
      (∀ a ∈ gs.assets_on_board, a ∈ c3role.visible_assets ++ (if c3role.type = "defender" then c3role.assets else [])) ∧
      (∀ a ∈ c3role.visible_assets ++ (if c3role.type = "defender" then c3role.assets else []), ∃ b ∈ gs.assets_on_board, b.id = a.id) ∧
      c'.interaction_buffer = c3client.interaction_buffer :=
  (C3_start_game_spec c3client c3game).2 c3lobby c3scn "conn-d" c3role rfl rfl rfl rfl rfl rfl

/-- Permanent equipment categories excluded from validation in
Game._get_all_action_combinatinations. -/
def perm_eq : List String :=
  ["AttackTool", "SecuritySystem", "GlobalSingleUseDefenseEquipment", "GlobalSingleUseAttackEquipment"]

/-- Game._get_all_action_combinatinations (source spelling): the cross
product, in itertools.product order, of the hand indices of main actions,
the one-shifted hand indices of support actions plus the 0 sentinel for
none, and the one-shifted indices of non-permanent equipment plus the 0
sentinel for none. -/
def _get_all_action_combinatinations (gs : GameState) : List (Nat × Nat × Nat) :=
  let main_action_idxs := (gs.hand.enum.filter (fun p => p.2.card_type == "main")).map Prod.fst
  let support_action_idxs := ((gs.hand.enum.filter (fun p => p.2.card_type == "support")).map (fun p => p.1 + 1)) ++ [0]
  let equipment_idxs := ((gs.equipment.enum.filter (fun p => !(perm_eq.contains p.2.type))).map (fun p => p.1 + 1)) ++ [0]
  main_action_idxs.flatMap (fun m => support_action_idxs.flatMap (fun s => equipment_idxs.map (fun e => (m, s, e))))

/-- One entry of the get_valid_actions command payload as built by
Game.Output.get_valid_actions. -/
structure ActionDict where
  action_id : Int
  support_action_ids : List Int
  equipment_ids : List Int
deriving DecidableEq, Repr

/-- The payload construction loop of Game.Output.get_valid_actions: for each
index triple, the main action id looked up in the hand, the support action id
(a one-element list) when the support index is positive, and the equipment id
when the equipment index is positive; a failed list index is a Python
IndexError. -/
def buildActionDicts (gs : GameState) : List (Nat × Nat × Nat) → Except String (List ActionDict)
  | [] => .ok []
  | (m, s, e) :: rest =>
      match gs.hand.get? m with
      | none => .error "IndexError"
      | some act =>
          match (if s > 0 then (gs.hand.get? (s - 1)).map (fun x => [x.id]) else some []) with
          | none => .error "IndexError"
          | some sup =>
              match (if e > 0 then (gs.equipment.get? (e - 1)).map (fun x => [x.id]) else some []) with
              | none => .error "IndexError"
              | some eqs =>
                  match buildActionDicts gs rest with
                  | .error err => .error err
                  | .ok tail => .ok ({ action_id := act.id, support_action_ids := sup, equipment_ids := eqs } :: tail)

/-- Concrete main action with id 7 used by the C7 theorems. -/
def action7 : Action where
  id := 7
  name := "phishing"
  card_type := "main"
  target_type := some "single"
  requires_attack_mask := none

/-- Concrete snapshot whose hand is exactly one main action with id 7 and
whose equipment list is empty; used by the C7 theorems. -/
def gs7 : GameState := { baseGS with hand := [action7] }

/-- C7 counterexample: for the hand of exactly one main action with id 7 and
no equipment, the candidate enumeration yields the single index tuple
(0, 0, 0) and not the id tuple (7, 0, 0) the claim names. -/
theorem C7_get_all_action_combinatinations_counterexample :
    _get_all_action_combinatinations gs7 = [(0, 0, 0)] ∧
    _get_all_action_combinatinations gs7 ≠ [(7, 0, 0)] := by
  constructor
  · rfl
  · decide

/-- C7 (amended): for a hand of exactly one main action with id 7, no
support actions and no equipment, the candidate enumeration yields exactly
one tuple (0, 0, 0) — the hand index of the main action with the 0 sentinels
for no support and no equipment — and the outbound get_valid_actions payload
built from it carries exactly action id 7 with empty support and equipment id
lists, before server validation. -/
theorem C7_single_main_action_amended :
    _get_all_action_combinatinations gs7 = [(0, 0, 0)] ∧
    buildActionDicts gs7 (_get_all_action_combinatinations gs7) = .ok [{ action_id := 7, support_action_ids := [], equipment_ids := [] }] := by
  constructor
  · rfl
  · rfl

/-- Outbound command envelopes dispatched through the SEND event, restricted
to the commands the embedded operations issue (names from
constants/Commands.py). -/
inductive OutCommand where
  | get_valid_actions (actions : List ActionDict)
  | buy_equipment (equipment_ids : List Int) (endShopping : Bool)
  | surrender
  | leave_game
deriving DecidableEq, Repr

/-- Game.buy_equipment: requires the Running storage phase, a snapshot and
the Shopping internal phase; with an empty id list it returns immediately
(nothing to buy) without sending, changing state or queueing; otherwise it
sends the buy_equipment command with endShopping=True, sets the internal
phase to Playing and queues a PLAY_CARD interaction. -/
def buy_equipment (c : GameClient) (equipment_ids : List Int) :
    Except String (GameClient × List OutCommand) :=
  if c.phase ≠ .Running then .error "Cannot shop when game is not running"
  else
    match c.game_state with
    | none => .error "Cannot start game if game state is not set"
    | some gs =>
        if gs.internal_phase ≠ .Shopping then .error "Cannot shop outside the shopping phase"
        else if equipment_ids.length = 0 then .ok (c, [])
        else .ok ({ c with game_state := some { gs with internal_phase := .Playing }, interaction_buffer := c.interaction_buffer ++ [GameInteractionType.PLAY_CARD] }, [OutCommand.buy_equipment equipment_ids true])

/-- C10: in Running phase with a snapshot in the Shopping internal phase,
buy_equipment with an empty id list returns with the whole session state
unchanged (internal phase still Shopping, interaction queue untouched) and
sends nothing, while a non-empty list sends exactly the buy command, sets the
internal phase to Playing and queues exactly one PLAY_CARD interaction. -/
theorem C10_buy_equipment_spec (c : GameClient) (gs : GameState) (ids : List Int)
    (hphase : c.phase = GameStoragePhase.Running)
    (hgs : c.game_state = some gs)
    (hint : gs.internal_phase = InternalGamePhase.Shopping) :
    (ids = [] → buy_equipment c ids = .ok (c, [])) ∧
    (ids ≠ [] → buy_equipment c ids = .ok ({ c with game_state := some { gs with internal_phase := .Playing }, interaction_buffer := c.interaction_buffer ++ [GameInteractionType.PLAY_CARD] }, [OutCommand.buy_equipment ids true])) := by
  constructor
  · intro hnil
    simp [buy_equipment, hphase, hgs, hint, hnil]
  · intro hne
    have hlen : ¬ ids.length = 0 := by simpa using hne
    simp [buy_equipment, hphase, hgs, hint, hlen]

/-- Concrete running session in the Shopping internal phase; used by the C10
witness. -/
def c10client : GameClient where
  phase := .Running
  lobby := some { code := "L", game_options := { equipment_shop_mode := 1 }, players := [], scenario := none }
  actor_connection_id := some "conn-d"
  game_state := some { baseGS with internal_phase := .Shopping }
  offer_received := false
  interaction_buffer := []

/-- C10 witness: evaluation of the C10 theorem on a concrete shopping
session with the empty list and with one equipment id. -/
theorem C10_buy_equipment_spec_witness :
    buy_equipment c10client [] = .ok (c10client, []) ∧
    buy_equipment c10client [42] = .ok ({ c10client with game_state := some { { baseGS with internal_phase := InternalGamePhase.Shopping } with internal_phase := .Playing }, interaction_buffer := c10client.interaction_buffer ++ [GameInteractionType.PLAY_CARD] }, [OutCommand.buy_equipment [42] true]) :=
  ⟨(C10_buy_equipment_spec c10client { baseGS with internal_phase := .Shopping } [] rfl rfl rfl).1 rfl,
   (C10_buy_equipment_spec c10client { baseGS with internal_phase := .Shopping } [42] rfl rfl rfl).2 (by simp)⟩

/-- The Playable reply entry of message_models.py, restricted to the fields
Game.get_valid_actions inspects. The nullable dict and list fields are
Options; the parser drops null dict values, so present dict values are plain
lists. -/
structure Playable where
  playable : Bool
  possible_targets : Option (List Int)
  possible_response_target_ids : Option (List (Int × List Int))
deriving DecidableEq, Repr

/-- One playable-action tuple of Game.get_valid_actions: hand index of the
main action, target asset id, attack mask index, support index, equipment
index, response target id. -/
abbrev PlayableTuple := Nat × Int × Nat × Nat × Nat × Int

/-- The per-target expansion loop of Game.get_valid_actions: looks the
current target up in the response-target dict (a missing key is a Python
KeyError), substitutes [0] for an empty entry, and emits the
itertools.product of the fixed combination indices with the attack masks and
the response target ids (masks vary slower than response targets). -/
def expandTargets (attack_masks : List Nat) (combo : Nat × Nat × Nat)
    (response_target_ids : List (Int × List Int)) :
    List Int → Except String (List PlayableTuple)
  | [] => .ok []
  | t :: rest =>
      match alistGet response_target_ids t with
      | none => .error "KeyError"
      | some rts =>
          let asset_rts := if rts.length = 0 then [(0 : Int)] else rts
          match expandTargets attack_masks combo response_target_ids rest with
          | .error e => .error e
          | .ok tail => .ok ((attack_masks.flatMap (fun mask => asset_rts.map (fun rt => (combo.1, t, mask, combo.2.1, combo.2.2, rt)))) ++ tail)

/-- The per-reply-entry expansion of Game.get_valid_actions: skips entries
not marked playable, indexes the candidate list and the hand (IndexError on
a bad index), enumerates targets (the possible targets for a single-target
action — iterating a null list is a Python TypeError — and the [0] sentinel
otherwise), defaults the response-target dict to target -> [0] when absent or
empty, and picks attack mask indices [1,2,3] when the action requires an
attack mask and [0] otherwise. -/
def expandPlayable (gs : GameState) (combos : List (Nat × Nat × Nat))
    (entry : Nat × Playable) : Except String (List PlayableTuple) :=
  if !entry.2.playable then .ok []
  else
    match combos.get? entry.1 with
    | none => .error "IndexError"
    | some combo =>
        match gs.hand.get? combo.1 with
        | none => .error "IndexError"
        | some action =>
            match (if action.target_type == some "single" then entry.2.possible_targets else some [0]) with
            | none => .error "TypeError: possible_targets is None"
            | some target_asset_ids =>
                let response_target_ids : List (Int × List Int) :=
                  match entry.2.possible_response_target_ids with
                  | some m => if m.length > 0 then m else target_asset_ids.map (fun t => (t, [(0 : Int)]))
                  | none => target_asset_ids.map (fun t => (t, [(0 : Int)]))
                let attack_masks : List Nat := if action.requires_attack_mask == some true then [1, 2, 3] else [0]
                expandTargets attack_masks combo response_target_ids target_asset_ids

/-- The fold of expandPlayable over the reply dict items in order, chaining
all emitted tuples. -/
def expandAll (gs : GameState) (combos : List (Nat × Nat × Nat)) :
    List (Nat × Playable) → Except String (List PlayableTuple)
  | [] => .ok []
  | entry :: rest =>
      match expandPlayable gs combos entry with
      | .error e => .error e
      | .ok xs =>
          match expandAll gs combos rest with
          | .error e => .error e
          | .ok tail => .ok (xs ++ tail)

/-- Game.get_valid_actions with the awaited all_actions_playable reply passed
explicitly (the source sends the candidate set, suspends on the event bus and
resumes with this reply): requires the Running storage phase, a snapshot and
the local turn; sends the get_valid_actions command, re-expands the confirmed
entries, and when the final playable set is empty sends surrender and then
leave_game; returns the playable tuples with the outbound command trace in
order. -/
def get_valid_actions (c : GameClient) (playable_results : List (Nat × Playable)) :
    Except String (List PlayableTuple × List OutCommand) :=
  if c.phase ≠ .Running then .error "Cannot get valid actions when game is not running"
  else
    match c.game_state with
    | none => .error "Cannot get valid actions if game state is not set"
    | some gs =>
        match _is_my_turn c gs.external_phase with
        | .error e => .error e
        | .ok mt =>
            if mt = false then .error "Cannot get valid actions when it is not your turn"
            else
              let all_action_combinations := _get_all_action_combinatinations gs
              match buildActionDicts gs all_action_combinations with
              | .error e => .error e
              | .ok dicts =>
                  match expandAll gs all_action_combinations playable_results with
                  | .error e => .error e
                  | .ok playable_actions =>
                      .ok (playable_actions, [OutCommand.get_valid_actions dicts] ++ (if playable_actions.length = 0 then [OutCommand.surrender, OutCommand.leave_game] else []))

/-- C8: whenever get_valid_actions completes with an empty final playable
set, its outbound command trace is exactly the get_valid_actions request
followed by surrender and then leave_game, in that order. -/
theorem C8_empty_playable_surrenders_then_leaves (c : GameClient)
    (reply : List (Nat × Playable)) (acts : List PlayableTuple)
    (cmds : List OutCommand)
    (h : get_valid_actions c reply = .ok (acts, cmds)) (hempty : acts = []) :
    ∃ dicts, cmds = [OutCommand.get_valid_actions dicts, OutCommand.surrender, OutCommand.leave_game] := by
  rw [get_valid_actions] at h
  split at h
  · exact absurd h (by simp)
  · split at h
    · exact absurd h (by simp)
    · rename_i gs heq
      split at h
      · exact absurd h (by simp)
      · split at h
        · exact absurd h (by simp)
        · simp only [] at h
          split at h
          · exact absurd h (by simp)
          · rename_i dicts hdicts
            split at h
            · exact absurd h (by simp)
            · rename_i playable_actions hexp
              simp only [Except.ok.injEq, Prod.mk.injEq] at h
              obtain ⟨h1, h2⟩ := h
              subst hempty
              rw [h1] at h2
              simp only [List.length_nil, if_pos rfl] at h2
              exact ⟨dicts, h2.symm⟩

/-- Attacker actor used by the C8 witness. -/
def atkRole : Actor where
  id := "role-1"
  type := "attacker"
  connection_id := "conn-a"
  visible_assets := []
  assets := []
  actions := []
  equipment := []

/-- Concrete running attacker session on its own turn with the single main
action of id 7 in hand; used by the C8 witness. -/
def c8client : GameClient where
  phase := .Running
  lobby := some { code := "L", game_options := { equipment_shop_mode := 0 }, players := [], scenario := none }
  actor_connection_id := some "conn-a"
  game_state := some { gs7 with actor_connection_id := some "conn-a", roles := [("conn-a", atkRole)], external_phase := .Attacker }
  offer_received := false
  interaction_buffer := []

/-- Concrete reply marking the only candidate not playable; used by the C8
witness. -/
def c8reply : List (Nat × Playable) :=
  [(0, { playable := false, possible_targets := none, possible_response_target_ids := none })]

/-- C8 witness: evaluation of the C8 theorem on the concrete session whose
only candidate the server rejects. -/
theorem C8_empty_playable_surrenders_then_leaves_witness :
    ∃ dicts, ([OutCommand.get_valid_actions [{ action_id := 7, support_action_ids := [], equipment_ids := [] }], OutCommand.surrender, OutCommand.leave_game] : List OutCommand) = [OutCommand.get_valid_actions dicts, OutCommand.surrender, OutCommand.leave_game] :=
  C8_empty_playable_surrenders_then_leaves c8client c8reply []
    [OutCommand.get_valid_actions [{ action_id := 7, support_action_ids := [], equipment_ids := [] }], OutCommand.surrender, OutCommand.leave_game]
    (by rfl) rfl

/-- Untyped JSON-like wire values fed to PQPParser.parse_message, restricted
to the shapes the embedded schema fields use; a field present with value null
maps to JValue.null. -/
inductive JValue where
  | null
  | jint (n : Int)
  | jstr (s : String)
  | jbool (b : Bool)
  | jlist (xs : List JValue)

/-- Field target types of the embedded schemas: the Python base-type
constructors int, str and bool, and typing.List of a target type. -/
inductive DType where
  | dint
  | dstr
  | dbool
  | dlist (t : DType)
deriving DecidableEq, Repr

/-- A Required/Optional field declaration from network/ProtocolParts.py:
required is true for Required(...) and false for Optional(...); nullable
mirrors the keyword argument of either. -/
structure FieldSpec where
  required : Bool
  nullable : Bool
  dtype : DType
deriving DecidableEq, Repr

/-- Classified parse failures of PQPParser.parse_message; each is a raised
ValueError in the source, distinguished here by constructor as the spec
taxonomy does (badValue stands for the exception a failing base-type
coercion raises). -/
inductive ParseError where
  | missingField (f : String)
  | unexpectedNull (f : String)
  | notAList (f : String)
  | badValue (f : String)
deriving DecidableEq, Repr

/-- An inbound message body: a string-keyed map of wire values. -/
abbrev JObject := List (String × JValue)

/-- Python base-type application dtype(value) on scalars: int() accepts
ints, bools and integer-shaped strings and raises otherwise (including on
None and lists); str() always renders; bool() is truthiness; applying a bare
typing.List alias raises. none models the raised exception. -/
def coerce : DType → JValue → Option JValue
  | .dint, .jint n => some (.jint n)
  | .dint, .jbool b => some (.jint (if b then 1 else 0))
  | .dint, .jstr s => (s.toInt?).map (fun n => .jint n)
  | .dint, _ => none
  | .dstr, .jstr s => some (.jstr s)
  | .dstr, .jint n => some (.jstr (toString n))
  | .dstr, .jbool b => some (.jstr (if b then "True" else "False"))
  | .dstr, .null => some (.jstr "None")
  | .dstr, .jlist _ => some (.jstr "[...]")
  | .dbool, .null => some (.jbool false)
  | .dbool, .jint n => some (.jbool (n != 0))
  | .dbool, .jstr s => some (.jbool (s != ""))
  | .dbool, .jbool b => some (.jbool b)
  | .dbool, .jlist xs => some (.jbool (xs.length != 0))
  | .dlist _, _ => none

/-- PQPParser._parse_list restricted to scalar element coercion (an element
that is a dict would recurse into parse_message; the embedded schema fields
use scalar elements): coerces every element and raises (none) when any
element fails. -/
def parseListElems (t : DType) : List JValue → Option (List JValue)
  | [] => some []
  | v :: rest =>
      match coerce t v with
      | none => none
      | some w => (parseListElems t rest).map (fun tail => w :: tail)

/-- The decoding of a present non-null field value in PQPParser.parse_message:
a List-typed field requires a list value (else the not-a-list ValueError) and
decodes its elements; a scalar field applies the base-type coercion. -/
def decodeFieldValue (f : String) (spec : FieldSpec) (v : JValue) :
    Except ParseError (Option JValue) :=
  match spec.dtype with
  | .dlist t =>
      match v with
      | .jlist xs =>
          match parseListElems t xs with
          | none => .error (.badValue f)
          | some ys => .ok (some (.jlist ys))
      | _ => .error (.notAList f)
  | t =>
      match coerce t v with
      | none => .error (.badValue f)
      | some w => .ok (some w)

/-- The per-field body of PQPParser.parse_message: an absent Required field
raises the missing-field error; an absent Optional field sets the attribute
to None; a present null raises the unexpected-null error unless the field is
nullable, in which case the attribute is None; a present non-null value is
decoded by the field dtype. The returned none is a Python None attribute. -/
def parseField (f : String) (spec : FieldSpec) (msg : JObject) :
    Except ParseError (Option JValue) :=
  match alistGet msg f with
  | none =>
      if spec.required then .error (.missingField f)
      else .ok none
  | some .null =>
      if !spec.nullable then .error (.unexpectedNull f) else .ok none
  | some v => decodeFieldValue f spec v

/-- PQPParser.parse_message over a declared schema in field declaration
order: the first failing field aborts with its error; on success the
constructed object maps every declared field name to its decoded attribute. -/
def parse_message (schema : List (String × FieldSpec)) (msg : JObject) :
    Except ParseError (List (String × Option JValue)) :=
  match schema with
  | [] => .ok []
  | (f, spec) :: rest =>
      match parseField f spec msg with
      | .error e => .error e
      | .ok v =>
          match parse_message rest msg with
          | .error e => .error e
          | .ok attrs => .ok ((f, v) :: attrs)

theorem decodeFieldValue_errors (f g : String) (spec : FieldSpec) (v : JValue) :
    decodeFieldValue f spec v ≠ .error (.missingField g) ∧
    decodeFieldValue f spec v ≠ .error (.unexpectedNull g) := by
  constructor <;>
  · intro h
    unfold decodeFieldValue at h
    split at h
    · split at h
      · split at h <;> simp at h
      · simp at h
    · split at h <;> simp at h

theorem parseField_error_missing (f g : String) (spec : FieldSpec) (msg : JObject)
    (h : parseField f spec msg = .error (.missingField g)) :
    g = f ∧ spec.required = true ∧ alistGet msg f = none := by
  match hm : alistGet msg f with
  | none =>
      simp only [parseField, hm] at h
      cases hreq : spec.required
      · simp [hreq] at h
      · simp only [hreq, if_true, Except.error.injEq, ParseError.missingField.injEq] at h
        exact ⟨h.symm, rfl, rfl⟩
  | some JValue.null =>
      simp only [parseField, hm] at h
      split at h <;> simp at h
  | some (JValue.jint n) =>
      simp only [parseField, hm] at h
      exact absurd h (decodeFieldValue_errors f g spec _).1
  | some (JValue.jstr s) =>
      simp only [parseField, hm] at h
      exact absurd h (decodeFieldValue_errors f g spec _).1
  | some (JValue.jbool b) =>
      simp only [parseField, hm] at h
      exact absurd h (decodeFieldValue_errors f g spec _).1
  | some (JValue.jlist xs) =>
      simp only [parseField, hm] at h
      exact absurd h (decodeFieldValue_errors f g spec _).1

theorem parseField_error_null (f g : String) (spec : FieldSpec) (msg : JObject)
    (h : parseField f spec msg = .error (.unexpectedNull g)) :
    g = f ∧ spec.nullable = false ∧ alistGet msg f = some .null := by
  match hm : alistGet msg f with
  | none =>
      simp only [parseField, hm] at h
      split at h <;> simp at h
  | some JValue.null =>
      simp only [parseField, hm] at h
      cases hnul : spec.nullable
      · simp only [hnul, Bool.not_false, if_true, Except.error.injEq, ParseError.unexpectedNull.injEq] at h
        exact ⟨h.symm, rfl, rfl⟩
      · simp [hnul] at h
  | some (JValue.jint n) =>
      simp only [parseField, hm] at h
      exact absurd h (decodeFieldValue_errors f g spec _).2
  | some (JValue.jstr s) =>
      simp only [parseField, hm] at h
      exact absurd h (decodeFieldValue_errors f g spec _).2
  | some (JValue.jbool b) =>
      simp only [parseField, hm] at h
      exact absurd h (decodeFieldValue_errors f g spec _).2
  | some (JValue.jlist xs) =>
      simp only [parseField, hm] at h
      exact absurd h (decodeFieldValue_errors f g spec _).2

/-- C9: per field, the parser fails with the missing-field error exactly when
the field is Required and absent; an absent Optional field yields a None
attribute; a present null fails with the unexpected-null error exactly when
the field is not nullable, and yields a None attribute when it is; and over a
whole message, a missing-field or unexpected-null failure always names a
schema field with that exact defect, while a successful parse assigns None to
every absent Optional field. -/
theorem C9_parse_message_spec :
    (∀ (f : String) (spec : FieldSpec) (msg : JObject),
      parseField f spec msg = .error (.missingField f) ↔
        (spec.required = true ∧ alistGet msg f = none)) ∧
    (∀ (f : String) (spec : FieldSpec) (msg : JObject),
      spec.required = false → alistGet msg f = none → parseField f spec msg = .ok none) ∧
    (∀ (f : String) (spec : FieldSpec) (msg : JObject),
      alistGet msg f = some .null →
        (parseField f spec msg = .error (.unexpectedNull f) ↔ spec.nullable = false)) ∧
    (∀ (f : String) (spec : FieldSpec) (msg : JObject),
      alistGet msg f = some .null → spec.nullable = true → parseField f spec msg = .ok none) ∧
    (∀ (schema : List (String × FieldSpec)) (msg : JObject) (f : String),
      parse_message schema msg = .error (.missingField f) →
        ∃ spec, (f, spec) ∈ schema ∧ spec.required = true ∧ alistGet msg f = none) ∧
    (∀ (schema : List (String × FieldSpec)) (msg : JObject) (f : String),
      parse_message schema msg = .error (.unexpectedNull f) →
        ∃ spec, (f, spec) ∈ schema ∧ spec.nullable = false ∧ alistGet msg f = some .null) ∧
    (∀ (schema : List (String × FieldSpec)) (msg : JObject)
        (attrs : List (String × Option JValue)) (f : String) (spec : FieldSpec),
      parse_message schema msg = .ok attrs → (f, spec) ∈ schema →
        spec.required = false → alistGet msg f = none → (f, none) ∈ attrs) := by
  refine ⟨?_, ?_, ?_, ?_, ?_, ?_, ?_⟩
  · intro f spec msg
    constructor
    · intro h
      obtain ⟨_, hreq, hm⟩ := parseField_error_missing f f spec msg h
      exact ⟨hreq, hm⟩
    · rintro ⟨hreq, hm⟩
      simp [parseField, hm, hreq]
  · intro f spec msg hreq hm
    simp [parseField, hm, hreq]
  · intro f spec msg hm
    constructor
    · intro h
      exact (parseField_error_null f f spec msg h).2.1
    · intro hnul
      simp [parseField, hm, hnul]
  · intro f spec msg hm hnul
    simp [parseField, hm, hnul]
  · intro schema
    induction schema with
    | nil => intro msg f h; simp [parse_message] at h
    | cons hd rest ih =>
        intro msg f h
        obtain ⟨fn, spec⟩ := hd
        simp only [parse_message] at h
        match hpf : parseField fn spec msg with
        | .error e =>
            rw [hpf] at h
            simp only [Except.error.injEq] at h
            subst h
            obtain ⟨hgf, hreq, hm⟩ := parseField_error_missing fn f spec msg hpf
            exact ⟨spec, by simp [hgf], hreq, by rw [hgf]; exact hm⟩
        | .ok v =>
            rw [hpf] at h
            match hrest : parse_message rest msg with
            | .error e =>
                rw [hrest] at h
                simp only [Except.error.injEq] at h
                subst h
                obtain ⟨spec2, hmem, hreq, hm⟩ := ih msg f hrest
                exact ⟨spec2, List.mem_cons_of_mem _ hmem, hreq, hm⟩
            | .ok attrs => rw [hrest] at h; simp at h
  · intro schema
    induction schema with
    | nil => intro msg f h; simp [parse_message] at h
    | cons hd rest ih =>
        intro msg f h
        obtain ⟨fn, spec⟩ := hd
        simp only [parse_message] at h
        match hpf : parseField fn spec msg with
        | .error e =>
            rw [hpf] at h
            simp only [Except.error.injEq] at h
            subst h
            obtain ⟨hgf, hnul, hm⟩ := parseField_error_null fn f spec msg hpf
            exact ⟨spec, by simp [hgf], hnul, by rw [hgf]; exact hm⟩
        | .ok v =>
            rw [hpf] at h
            match hrest : parse_message rest msg with
            | .error e =>
                rw [hrest] at h
                simp only [Except.error.injEq] at h
                subst h
                obtain ⟨spec2, hmem, hnul, hm⟩ := ih msg f hrest
                exact ⟨spec2, List.mem_cons_of_mem _ hmem, hnul, hm⟩
            | .ok attrs => rw [hrest] at h; simp at h
  · intro schema
    induction schema with
    | nil => intro msg attrs f spec hok hmem; simp at hmem
    | cons hd rest ih =>
        intro msg attrs f spec hok hmem hreq hm
        obtain ⟨fn, spec1⟩ := hd
        simp only [parse_message] at hok
        match hpf : parseField fn spec1 msg with
        | .error e => rw [hpf] at hok; simp at hok
        | .ok v =>
            rw [hpf] at hok
            match hrest : parse_message rest msg with
            | .error e => rw [hrest] at hok; simp at hok
            | .ok tailAttrs =>
                rw [hrest] at hok
                simp only [Except.ok.injEq] at hok
                subst hok
                rcases List.mem_cons.mp hmem with heq | hmem2
                · have hf : f = fn := congrArg Prod.fst heq
                  have hs : spec = spec1 := congrArg Prod.snd heq
                  subst hf
                  subst hs
                  have hv : parseField f spec msg = .ok none := by
                    simp [parseField, hm, hreq]
                  rw [hv] at hpf
                  injection hpf with hveq
                  subst hveq
                  exact List.mem_cons_self _ _
                · exact List.mem_cons_of_mem _ (ih msg tailAttrs f spec hrest hmem2 hreq hm)

/-- Concrete two-field schema (a required non-nullable string and an optional
nullable int) used by the C9 witness. -/
def c9schema : List (String × FieldSpec) :=
  [("code", { required := true, nullable := false, dtype := .dstr }),
   ("slot", { required := false, nullable := true, dtype := .dint })]

/-- C9 witness: evaluation of the C9 theorem on the concrete schema — the
empty message fails naming the required field code as missing, and the
absent optional field slot parses to a None attribute. -/
theorem C9_parse_message_spec_witness :
    (∃ spec, ("code", spec) ∈ c9schema ∧ spec.required = true ∧ alistGet ([] : JObject) "code" = none) ∧
    parseField "slot" { required := false, nullable := true, dtype := .dint } [] = .ok none :=
  ⟨C9_parse_message_spec.2.2.2.2.1 c9schema [] "code" rfl,
   C9_parse_message_spec.2.1 "slot" { required := false, nullable := true, dtype := .dint } [] rfl rfl⟩

end PenQuest
